import Mathlib

/-!
Verification development for the hazards-website domain types
(src/server/src/types.py).

Python semantics are modelled shallowly:
* Python floats carry only small exact values here, so they are modelled
  as rationals;
* a raised exception is modelled as the error side of `Except`, with
  `PyError` distinguishing the exception classes the module can raise;
* `str.upper`, `str.lower`, `str.isdigit` and `int()` are modelled for
  the ASCII strings this domain uses;
* `os.path.splitext` is modelled after `posixpath.splitext`;
* the source compares one-character strings with `is not` (types.py line
  122); CPython caches single-character strings, so this behaves as
  inequality and is modelled so.
-/

/-- The exception classes construction and parsing can raise. `exception`
is the bare argument-free `Exception()` raised by `Location.__init__`
(types.py line 141); the others carry the formatted message. -/
inductive PyError where
  | valueError (msg : String)
  | typeError (msg : String)
  | indexError
  | exception
  deriving DecidableEq

/-- Payload carried by a raised error: its message, when it has one. -/
def PyError.payload : PyError → Option String
  | PyError.valueError m => some m
  | PyError.typeError m => some m
  | PyError.indexError => none
  | PyError.exception => none

/-- Model of Python `str.upper` for the ASCII strings of this domain. -/
def pyUpper (s : String) : String := String.mk (s.data.map Char.toUpper)

/-- Model of Python `str.lower` for the ASCII strings of this domain. -/
def pyLower (s : String) : String := String.mk (s.data.map Char.toLower)

/-- A string is all-lowercase when lowercasing it changes nothing. -/
def isLowerStr (s : String) : Bool := s.data.all fun c => c.toLower == c

/-- Model of Python `str.isdigit` for ASCII strings: nonempty and made of
decimal digits only. -/
def pyIsdigit (s : String) : Bool := !s.data.isEmpty && s.data.all Char.isDigit

/-- Model of Python `int()` on a string of ASCII digits. -/
def strToNat (s : List Char) : Nat := s.foldl (fun acc c => acc * 10 + (c.toNat - 48)) 0

/-- Whether `needle` is a prefix of `hay` (character lists). -/
def listIsPre : List Char → List Char → Bool
  | [], _ => true
  | _ :: _, [] => false
  | a :: as, b :: bs => a == b && listIsPre as bs

/-- Whether `needle` occurs as a contiguous substring of `hay`. -/
def strContains (hay needle : String) : Bool :=
  (List.range (hay.data.length + 1)).any fun i => listIsPre needle.data (hay.data.drop i)

/-- The HazardType enumeration (types.py lines 7 to 9). -/
inductive HazardType where
  | VOLCANOES
  | EARTHQUAKES
  deriving DecidableEq

/-- Member names of HazardType, as listed by `HazardType.__members__`. -/
def HazardType.name : HazardType → String
  | HazardType.VOLCANOES => "VOLCANOES"
  | HazardType.EARTHQUAKES => "EARTHQUAKES"

/-- Lookup `HazardType[s]`: the member whose name is exactly `s`, if any,
mirroring the membership test on `HazardType.__members__` (line 20). -/
def HazardType.ofName (s : String) : Option HazardType :=
  if s = "VOLCANOES" then some HazardType.VOLCANOES
  else if s = "EARTHQUAKES" then some HazardType.EARTHQUAKES
  else none

/-- Model of `HazardType.from_string` (lines 11 to 23): uppercase the argument, look
it up among the member names, otherwise raise `ValueError` with the given
string formatted into the message. -/
def HazardType.from_string (string : String) : Except PyError HazardType :=
  let upper_string := pyUpper string
  match HazardType.ofName upper_string with
  | some m => Except.ok m
  | none => Except.error (PyError.valueError (string ++ " is not a valid hazard type"))

/-- Model of `HazardType.to_string` (lines 25 to 32): the lowercased member name. -/
def HazardType.to_string (hazard_type : HazardType) : String :=
  pyLower hazard_type.name

/-- The ImageType enumeration (types.py lines 35 to 41). -/
inductive ImageType where
  | GEO_BACKSCATTER
  | GEO_COHERENCE
  | GEO_INTERFEROGRAM
  | ORTHO_BACKSCATTER
  | ORTHO_COHERENCE
  | ORTHO_INTERFEROGRAM
  deriving DecidableEq

/-- Member names of ImageType, as listed by `ImageType.__members__`. -/
def ImageType.name : ImageType → String
  | ImageType.GEO_BACKSCATTER => "GEO_BACKSCATTER"
  | ImageType.GEO_COHERENCE => "GEO_COHERENCE"
  | ImageType.GEO_INTERFEROGRAM => "GEO_INTERFEROGRAM"
  | ImageType.ORTHO_BACKSCATTER => "ORTHO_BACKSCATTER"
  | ImageType.ORTHO_COHERENCE => "ORTHO_COHERENCE"
  | ImageType.ORTHO_INTERFEROGRAM => "ORTHO_INTERFEROGRAM"

/-- Lookup `ImageType[s]`: the member whose name is exactly `s`, if any. -/
def ImageType.ofName (s : String) : Option ImageType :=
  if s = "GEO_BACKSCATTER" then some ImageType.GEO_BACKSCATTER
  else if s = "GEO_COHERENCE" then some ImageType.GEO_COHERENCE
  else if s = "GEO_INTERFEROGRAM" then some ImageType.GEO_INTERFEROGRAM
  else if s = "ORTHO_BACKSCATTER" then some ImageType.ORTHO_BACKSCATTER
  else if s = "ORTHO_COHERENCE" then some ImageType.ORTHO_COHERENCE
  else if s = "ORTHO_INTERFEROGRAM" then some ImageType.ORTHO_INTERFEROGRAM
  else none

/-- Model of `ImageType.from_string` (lines 44 to 50): same contract as
`HazardType.from_string` with its own message. -/
def ImageType.from_string (string : String) : Except PyError ImageType :=
  let upper_string := pyUpper string
  match ImageType.ofName upper_string with
  | some m => Except.ok m
  | none => Except.error (PyError.valueError (string ++ " is not a valid image type"))

/-- Model of `ImageType.to_string` (lines 53 to 55): the lowercased member name. -/
def ImageType.to_string (image_type : ImageType) : String :=
  pyLower image_type.name

/-- A successfully constructed `Date`: wraps the original YYYYMMDD string
(attribute `self.date`, line 82). -/
structure Date where
  date : String
  deriving DecidableEq

/-- The value `int(s[4:6])` reads on an all-digit string. -/
def Date.month_field (s : String) : Nat := strToNat ((s.data.drop 4).take 2)

/-- The value `int(s[6:])` reads on an all-digit string. -/
def Date.day_field (s : String) : Nat := strToNat (s.data.drop 6)

/-- Model of `Date.is_valid_date` (types.py lines 86 to 95): length exactly 8, all
digits, month substring (indices 4 and 5) in 1..12, day substring (indices
6 and 7) in 1..31, as four nested conditionals falling back to False. -/
def Date.is_valid_date (possible_date : String) : Bool :=
  if possible_date.length = 8 then
    if pyIsdigit possible_date then
      if 1 ≤ Date.month_field possible_date ∧ Date.month_field possible_date ≤ 12 then
        if 1 ≤ Date.day_field possible_date ∧ Date.day_field possible_date ≤ 31 then
          true
        else false
      else false
    else false
  else false

/-- Model of `Date.__init__` as Python executes it (lines 80 to 84): the call
`self.is_valid_date(date)` binds `self` to the single parameter of
`is_valid_date` (line 86) and passes `date` as an extra argument, so every
construction raises `TypeError` before any validation runs. -/
def Date.init (_date : String) : Except PyError Date :=
  Except.error (PyError.typeError "is_valid_date() takes 1 positional argument but 2 were given")

/-- The body of `Date.__init__` (lines 81 to 84) with the validator applied
to its string argument, which is the behaviour the class docstring (lines
72 to 77) documents: store the string if valid, otherwise raise
`ValueError` with the raw input formatted into the message. -/
def Date.init_fixed (date : String) : Except PyError Date :=
  if Date.is_valid_date date then Except.ok ⟨date⟩
  else Except.error (PyError.valueError
    ("The date " ++ date ++ " is not a valid date of the form \"YYYYMMDD\""))

/-- Last index at which `c` occurs in the list scanned so far, carried as
an accumulator; `-1` when absent, as Python `str.rfind`. -/
def rfindCharAux (c : Char) : List Char → Nat → Int → Int
  | [], _, acc => acc
  | x :: xs, i, acc => rfindCharAux c xs (i + 1) (if x = c then (i : Int) else acc)

/-- Python `p.rfind(c)`: last index of `c` in `p`, `-1` when absent. -/
def rfindChar (p : List Char) (c : Char) : Int := rfindCharAux c p 0 (-1)

/-- Model of `posixpath.splitext`: split off the extension at the last dot,
provided it lies after the last slash and the final path component does not
consist only of leading dots. -/
def splitext (p : List Char) : List Char × List Char :=
  let sepIndex := rfindChar p '/'
  let dotIndex := rfindChar p '.'
  if sepIndex < dotIndex then
    let filenameStart := (sepIndex + 1).toNat
    if (List.range' filenameStart (dotIndex.toNat - filenameStart)).any
        (fun j => p.getD j '.' != '.') then
      (p.take dotIndex.toNat, p.drop dotIndex.toNat)
    else (p, [])
  else (p, [])

/-- The allowed image extensions (types.py line 120). -/
def valid_extensions : List String := [".jpg", ".png", ".tiff", ".gif"]

/-- A successfully constructed `ImageURL`: wraps the original string
(attribute `self.url`, line 114). -/
structure ImageURL where
  url : String
  deriving DecidableEq

/-- Model of `ImageURL.is_valid_url` (types.py lines 119 to 124): split the string
into path and extension, then reject when the first path character differs
from the slash or the extension is outside the allowed set. Indexing
`filename[0]` on an empty path raises `IndexError`, modelled as the error
side. -/
def ImageURL.is_valid_url (url : String) : Except PyError Bool :=
  match (splitext url.data).1 with
  | [] => Except.error PyError.indexError
  | c :: _ =>
    if c != '/' || !(valid_extensions.contains (String.mk (splitext url.data).2)) then
      Except.ok false
    else Except.ok true

/-- Model of `ImageURL.__init__` as Python executes it (lines 112 to 116): the call
`self.is_valid_url(url)` binds `self` to the single parameter of
`is_valid_url` (line 119) and passes `url` as an extra argument, so every
construction raises `TypeError` before any validation runs. -/
def ImageURL.init (_url : String) : Except PyError ImageURL :=
  Except.error (PyError.typeError "is_valid_url() takes 1 positional argument but 2 were given")

/-- The body of `ImageURL.__init__` (lines 113 to 116) with the validator
applied to its string argument: store the url when the check returns True,
raise `ValueError` naming the raw input when it returns False, and let the
IndexError of the check propagate otherwise. -/
def ImageURL.init_fixed (url : String) : Except PyError ImageURL :=
  match ImageURL.is_valid_url url with
  | Except.ok true => Except.ok ⟨url⟩
  | Except.ok false => Except.error (PyError.valueError
      ("The url " ++ url ++ " is not a valid URL"))
  | Except.error e => Except.error e

/-- Model of `LatLong` (types.py lines 62 to 65); the float fields are modelled as
rationals. -/
structure LatLong where
  lat : ℚ
  long : ℚ
  deriving DecidableEq

/-- A successfully constructed `Location`: the center plus the four
bounding-box entries keyed North, South, East, West (lines 134 to 139). -/
structure Location where
  center : LatLong
  north : LatLong
  south : LatLong
  east : LatLong
  west : LatLong
  deriving DecidableEq

/-- Model of `Location.validate_latitudes` (lines 143 to 145) as Python executes it:
`float()` is applied to the LatLong dataclass instances themselves, which
raises `TypeError` on every input, so no comparison is ever performed. -/
def Location.validate_latitudes (_north _south : LatLong) : Except PyError Bool :=
  Except.error (PyError.typeError "float() argument must be a string or a number, not LatLong")

/-- Model of `Location.validate_longitudes` (lines 147 to 149) as Python executes
it: the same `TypeError` as `validate_latitudes`. -/
def Location.validate_longitudes (_east _west : LatLong) : Except PyError Bool :=
  Except.error (PyError.typeError "float() argument must be a string or a number, not LatLong")

/-- The latitude bounds of lines 143 to 145 read on the `lat` fields,
which is the only reading under which the checks concern latitudes:
both latitudes strictly between -90 and 90. -/
def Location.validate_latitudes_fixed (north south : LatLong) : Bool :=
  decide (-90 < north.lat ∧ north.lat < 90) && decide (-90 < south.lat ∧ south.lat < 90)

/-- The longitude bounds of lines 147 to 149 read on the `long` fields:
east strictly below 180 and west strictly above -180, one-sided. -/
def Location.validate_longitudes_fixed (east west : LatLong) : Bool :=
  decide (east.long < 180) && decide (west.long > -180)

/-- Model of `Location.__init__` as Python executes it (lines 128 to 141): run both
validators, then either store the five coordinates or raise the bare
`Exception()` of line 141; any exception of the validators propagates. -/
def Location.init (center north south east west : LatLong) : Except PyError Location :=
  match Location.validate_latitudes north south with
  | Except.error e => Except.error e
  | Except.ok valid_lats =>
    match Location.validate_longitudes east west with
    | Except.error e => Except.error e
    | Except.ok valid_lons =>
      if valid_lats && valid_lons then Except.ok ⟨center, north, south, east, west⟩
      else Except.error PyError.exception

/-- Model of `Location.__init__` with the validators repaired to read the lat and
long fields; the failure path is still the bare argument-free `Exception()`
of line 141. -/
def Location.init_fixed (center north south east west : LatLong) : Except PyError Location :=
  if Location.validate_latitudes_fixed north south &&
      Location.validate_longitudes_fixed east west then
    Except.ok ⟨center, north, south, east, west⟩
  else Except.error PyError.exception

/-- Model of `HazardInfo` (types.py lines 159 to 165), fields in source order. -/
structure HazardInfo where
  location : Location
  last_updated : Date
  hazard_id : String
  hazard_type : HazardType
  name : String
  deriving DecidableEq

/-- Model of `Hazard` (types.py lines 168 to 174), fields in source order. -/
structure Hazard where
  hazard_id : String
  name : String
  hazard_type : HazardType
  location : Location
  last_updated : Date
  deriving DecidableEq

/-- The field-preserving map from `HazardInfo` to `Hazard`. -/
def HazardInfo.toHazard (h : HazardInfo) : Hazard :=
  ⟨h.hazard_id, h.name, h.hazard_type, h.location, h.last_updated⟩

/-- The field-preserving map from `Hazard` to `HazardInfo`. -/
def Hazard.toHazardInfo (h : Hazard) : HazardInfo :=
  ⟨h.location, h.last_updated, h.hazard_id, h.hazard_type, h.name⟩

/-! ## Helper lemmas -/

/-- Model of `Char.ofNat` applied to a valid code point keeps its value. -/
theorem charToNat_ofNat_valid (n : Nat) (h : n.isValidChar) : (Char.ofNat n).toNat = n := by
  rw [Char.ofNat, dif_pos h]
  rfl

/-- Lowercasing after uppercasing is plain lowercasing (ASCII case maps). -/
theorem charToLower_toUpper (c : Char) : c.toUpper.toLower = c.toLower := by
  unfold Char.toUpper Char.toLower
  by_cases h : c.toNat ≥ 97 ∧ c.toNat ≤ 122
  · rw [if_pos h]
    have hv : (c.toNat - 32).isValidChar := Or.inl (by omega)
    have ht : (Char.ofNat (c.toNat - 32)).toNat = c.toNat - 32 := charToNat_ofNat_valid _ hv
    rw [ht, if_pos (by omega), if_neg (by omega)]
    have he : c.toNat - 32 + 32 = c.toNat := by omega
    rw [he, Char.ofNat_toNat]
  · rw [if_neg h]

/-- Lowercasing an uppercased string is plain lowercasing. -/
theorem pyLower_pyUpper (s : String) : pyLower (pyUpper s) = pyLower s := by
  unfold pyLower pyUpper
  simp only [List.map_map]
  congr 1
  exact List.map_congr_left fun c _ => charToLower_toUpper c

/-- A prefix check succeeds on the list itself followed by anything. -/
theorem listIsPre_append (l r : List Char) : listIsPre l (l ++ r) = true := by
  induction l with
  | nil => rfl
  | cons a as ih => simp [listIsPre, ih]

/-- Every string occurs as a substring of itself followed by anything. -/
theorem strContains_append_self (s t : String) : strContains (s ++ t) s = true := by
  unfold strContains
  rw [List.any_eq_true]
  refine ⟨0, by simp [List.mem_range], ?_⟩
  show listIsPre s.data (((s ++ t).data).drop 0) = true
  rw [List.drop_zero]
  exact listIsPre_append s.data t.data

/-- Characterization of `Date.is_valid_date` by its four conditions. -/
theorem is_valid_date_iff (d : String) :
    Date.is_valid_date d = true ↔
      (d.length = 8 ∧ pyIsdigit d = true ∧
       1 ≤ Date.month_field d ∧ Date.month_field d ≤ 12 ∧
       1 ≤ Date.day_field d ∧ Date.day_field d ≤ 31) := by
  unfold Date.is_valid_date
  by_cases h1 : d.length = 8
  · rw [if_pos h1]
    by_cases h2 : pyIsdigit d = true
    · rw [if_pos h2]
      by_cases h3 : 1 ≤ Date.month_field d ∧ Date.month_field d ≤ 12
      · rw [if_pos h3]
        by_cases h4 : 1 ≤ Date.day_field d ∧ Date.day_field d ≤ 31
        · rw [if_pos h4]
          simp [h1, h2, h3.1, h3.2, h4.1, h4.2]
        · rw [if_neg h4]
          exact iff_of_false Bool.false_ne_true fun hc => h4 ⟨hc.2.2.2.2.1, hc.2.2.2.2.2⟩
      · rw [if_neg h3]
        exact iff_of_false Bool.false_ne_true fun hc => h3 ⟨hc.2.2.1, hc.2.2.2.1⟩
    · rw [if_neg h2]
      exact iff_of_false Bool.false_ne_true fun hc => h2 hc.2.1
  · rw [if_neg h1]
    exact iff_of_false Bool.false_ne_true fun hc => h1 hc.1

/-- Unfolding of `is_valid_url` when the split path is empty. -/
theorem is_valid_url_nil (url : String) (h : (splitext url.data).1 = []) :
    ImageURL.is_valid_url url = Except.error PyError.indexError := by
  unfold ImageURL.is_valid_url
  rw [h]

/-- Unfolding of `is_valid_url` when the split path is nonempty. -/
theorem is_valid_url_cons (url : String) (c : Char) (cs : List Char)
    (h : (splitext url.data).1 = c :: cs) :
    ImageURL.is_valid_url url =
      (if c != '/' || !(valid_extensions.contains (String.mk (splitext url.data).2)) then
        Except.ok false
      else Except.ok true) := by
  unfold ImageURL.is_valid_url
  rw [h]

/-! ## Claim theorems -/

/-- C1 (code bug): every 8-character all-digit string with month substring
in 1..12 and day substring in 1..31 passes `Date.is_valid_date`, and the
documented constructor body stores and exposes exactly the original string;
but actual construction (`Date.init`) raises a TypeError on every input
because `is_valid_date` lacks its self parameter, contradicting the doctest
in the Date docstring. -/
theorem date_valid_construction_codebug (d : String)
    (hlen : d.length = 8) (hdig : d.data.all Char.isDigit = true)
    (hm1 : 1 ≤ Date.month_field d) (hm2 : Date.month_field d ≤ 12)
    (hd1 : 1 ≤ Date.day_field d) (hd2 : Date.day_field d ≤ 31) :
    Date.is_valid_date d = true ∧
    Date.init_fixed d = Except.ok ⟨d⟩ ∧
    Date.init d = Except.error
      (PyError.typeError "is_valid_date() takes 1 positional argument but 2 were given") := by
  have hdigit : pyIsdigit d = true := by
    unfold pyIsdigit
    have hlen' : d.data.length = 8 := hlen
    cases hd : d.data with
    | nil => rw [hd] at hlen'; simp at hlen'
    | cons a as => rw [hd] at hdig; simp [hdig]
  have hv : Date.is_valid_date d = true :=
    (is_valid_date_iff d).mpr ⟨hlen, hdigit, hm1, hm2, hd1, hd2⟩
  refine ⟨hv, ?_, rfl⟩
  unfold Date.init_fixed
  rw [hv]
  rfl

/-- C1 witness at the docstring's own example 20190411. -/
theorem date_valid_construction_codebug_witness :
    Date.is_valid_date "20190411" = true ∧
    Date.init_fixed "20190411" = Except.ok ⟨"20190411"⟩ ∧
    Date.init "20190411" = Except.error
      (PyError.typeError "is_valid_date() takes 1 positional argument but 2 were given") :=
  date_valid_construction_codebug "20190411" (by decide) (by decide)
    (by decide) (by decide) (by decide) (by decide)

/-- C5 (code bug): every string that is invalid in one of the claim's ways
(wrong length, a non-digit character, month substring 0 or 13, day
substring 0 or 32) fails `Date.is_valid_date`, and the documented
constructor body raises a ValueError carrying the raw input in its message;
but actual construction (`Date.init`) raises a TypeError instead, again
because `is_valid_date` lacks its self parameter. -/
theorem date_invalid_construction_codebug (d : String)
    (h : d.length ≠ 8 ∨ (∃ c ∈ d.data, ¬ c.isDigit) ∨
         Date.month_field d = 0 ∨ Date.month_field d = 13 ∨
         Date.day_field d = 0 ∨ Date.day_field d = 32) :
    Date.is_valid_date d = false ∧
    Date.init_fixed d = Except.error (PyError.valueError
      ("The date " ++ d ++ " is not a valid date of the form \"YYYYMMDD\"")) ∧
    Date.init d = Except.error
      (PyError.typeError "is_valid_date() takes 1 positional argument but 2 were given") := by
  have hv : Date.is_valid_date d = false := by
    cases hb : Date.is_valid_date d with
    | false => rfl
    | true =>
      obtain ⟨c1, c2, c3, c4, c5, c6⟩ := (is_valid_date_iff d).mp hb
      rcases h with h | h | h | h | h | h
      · exact absurd c1 h
      · obtain ⟨c, hc, hcd⟩ := h
        have : d.data.all Char.isDigit = true := by
          unfold pyIsdigit at c2
          exact (Bool.and_eq_true _ _).mp c2 |>.2
        exact absurd (List.all_eq_true.mp this c hc) hcd
      · omega
      · omega
      · omega
      · omega
  refine ⟨hv, ?_, rfl⟩
  unfold Date.init_fixed
  rw [hv]
  rfl

/-- C5 witness at the month-13 string 20191301. -/
theorem date_invalid_construction_codebug_witness :
    Date.is_valid_date "20191301" = false ∧
    Date.init_fixed "20191301" = Except.error (PyError.valueError
      ("The date " ++ "20191301" ++ " is not a valid date of the form \"YYYYMMDD\"")) ∧
    Date.init "20191301" = Except.error
      (PyError.typeError "is_valid_date() takes 1 positional argument but 2 were given") :=
  date_invalid_construction_codebug "20191301"
    (Or.inr (Or.inr (Or.inr (Or.inl (by decide)))))

/-- C4: for every member m of HazardType and of ImageType,
parse(format(m)) = m, and format(m) is the lowercase member name:
it is all-lowercase and uppercasing it gives back exactly the name. -/
theorem enum_roundtrip_lowercase :
    (∀ m : HazardType,
      HazardType.from_string (HazardType.to_string m) = Except.ok m ∧
      pyUpper (HazardType.to_string m) = m.name ∧
      isLowerStr (HazardType.to_string m) = true) ∧
    (∀ m : ImageType,
      ImageType.from_string (ImageType.to_string m) = Except.ok m ∧
      pyUpper (ImageType.to_string m) = m.name ∧
      isLowerStr (ImageType.to_string m) = true) := by
  constructor
  · intro m
    cases m <;> exact ⟨rfl, by decide, by decide⟩
  · intro m
    cases m <;> exact ⟨rfl, by decide, by decide⟩

/-- C6: HazardType parsing is case-insensitive: each of the strings
volcanoes, Volcanoes, EARTHQUAKES parses successfully, and whenever any
string parses at all, formatting the result yields exactly the lowercased
input, which is itself all-lowercase. -/
theorem hazardtype_case_insensitive :
    (∀ s ∈ (["volcanoes", "Volcanoes", "EARTHQUAKES"] : List String),
      ∃ m, HazardType.from_string s = Except.ok m) ∧
    (∀ (s : String) (m : HazardType), HazardType.from_string s = Except.ok m →
      HazardType.to_string m = pyLower s ∧ isLowerStr (HazardType.to_string m) = true) := by
  constructor
  · intro s hs
    simp only [List.mem_cons, List.not_mem_nil, or_false] at hs
    rcases hs with h | h | h
    · exact h ▸ ⟨HazardType.VOLCANOES, rfl⟩
    · exact h ▸ ⟨HazardType.VOLCANOES, rfl⟩
    · exact h ▸ ⟨HazardType.EARTHQUAKES, rfl⟩
  · intro s m h
    simp only [HazardType.from_string, HazardType.ofName] at h
    by_cases h1 : pyUpper s = "VOLCANOES"
    · rw [if_pos h1] at h
      simp only [Except.ok.injEq] at h
      subst h
      refine ⟨?_, by decide⟩
      rw [← pyLower_pyUpper s, h1]
      rfl
    · rw [if_neg h1] at h
      by_cases h2 : pyUpper s = "EARTHQUAKES"
      · rw [if_pos h2] at h
        simp only [Except.ok.injEq] at h
        subst h
        refine ⟨?_, by decide⟩
        rw [← pyLower_pyUpper s, h2]
        rfl
      · rw [if_neg h2] at h
        exact absurd h (by simp)

/-- C6 witness at the mixed-case string Volcanoes. -/
theorem hazardtype_case_insensitive_witness :
    (∃ m, HazardType.from_string "Volcanoes" = Except.ok m) ∧
    (HazardType.to_string HazardType.VOLCANOES = pyLower "Volcanoes" ∧
     isLowerStr (HazardType.to_string HazardType.VOLCANOES) = true) :=
  ⟨hazardtype_case_insensitive.1 "Volcanoes" (by simp),
   hazardtype_case_insensitive.2 "Volcanoes" HazardType.VOLCANOES rfl⟩

/-- C7 counterexample: parsing tsunami raises a ValueError whose message is
exactly "tsunami is not a valid hazard type": it contains the given string
but no valid member name in either casing, so the raised error does not
carry the set of valid members. -/
theorem enum_invalid_error_counterexample :
    HazardType.from_string "tsunami" =
      Except.error (PyError.valueError "tsunami is not a valid hazard type") ∧
    strContains "tsunami is not a valid hazard type" "tsunami" = true ∧
    strContains "tsunami is not a valid hazard type" "volcanoes" = false ∧
    strContains "tsunami is not a valid hazard type" "VOLCANOES" = false ∧
    strContains "tsunami is not a valid hazard type" "earthquakes" = false ∧
    strContains "tsunami is not a valid hazard type" "EARTHQUAKES" = false :=
  ⟨rfl, by decide, by decide, by decide, by decide, by decide⟩

/-- C7 amended: on any string whose uppercasing matches no member name,
parsing fails with a ValueError whose message is the given string followed
by a fixed suffix naming the enum kind; the message carries the given
string but not the member list. -/
theorem enum_invalid_error_amended :
    (∀ s : String, HazardType.ofName (pyUpper s) = none →
      HazardType.from_string s = Except.error
        (PyError.valueError (s ++ " is not a valid hazard type")) ∧
      strContains (s ++ " is not a valid hazard type") s = true) ∧
    (∀ s : String, ImageType.ofName (pyUpper s) = none →
      ImageType.from_string s = Except.error
        (PyError.valueError (s ++ " is not a valid image type")) ∧
      strContains (s ++ " is not a valid image type") s = true) := by
  constructor
  · intro s h
    refine ⟨?_, strContains_append_self s _⟩
    simp only [HazardType.from_string, h]
  · intro s h
    refine ⟨?_, strContains_append_self s _⟩
    simp only [ImageType.from_string, h]

/-- C7 amended witness at the string tsunami. -/
theorem enum_invalid_error_amended_witness :
    HazardType.from_string "tsunami" = Except.error
      (PyError.valueError ("tsunami" ++ " is not a valid hazard type")) ∧
    strContains ("tsunami" ++ " is not a valid hazard type") "tsunami" = true :=
  enum_invalid_error_amended.1 "tsunami" rfl

/-- C2 (code bug): with the validators repaired to read the lat and long
fields, construction succeeds exactly under the claimed strict one-sided
bounds, and the spec's example succeeds; but the actual constructor
(`Location.init`) raises a TypeError on that very example, and on every
input, because `validate_latitudes` applies float() to the LatLong pair
itself. -/
theorem location_construction_codebug :
    (∀ center north south east west : LatLong,
      (Location.init_fixed center north south east west).isOk = true ↔
        ((-90 < north.lat ∧ north.lat < 90) ∧ (-90 < south.lat ∧ south.lat < 90) ∧
         east.long < 180 ∧ west.long > -180)) ∧
    (Location.init_fixed ⟨0,0⟩ ⟨45,0⟩ ⟨-45,0⟩ ⟨90,0⟩ ⟨-90,0⟩).isOk = true ∧
    (Location.init_fixed ⟨0,0⟩ ⟨90,0⟩ ⟨-45,0⟩ ⟨90,0⟩ ⟨-90,0⟩).isOk = false ∧
    Location.init ⟨0,0⟩ ⟨45,0⟩ ⟨-45,0⟩ ⟨90,0⟩ ⟨-90,0⟩ =
      Except.error (PyError.typeError
        "float() argument must be a string or a number, not LatLong") := by
  refine ⟨?_, by decide, by decide, rfl⟩
  intro center north south east west
  unfold Location.init_fixed Location.validate_latitudes_fixed Location.validate_longitudes_fixed
  by_cases h1 : (-90 < north.lat ∧ north.lat < 90) ∧ (-90 < south.lat ∧ south.lat < 90) ∧
      east.long < 180 ∧ west.long > -180
  · rw [if_pos (by simp only [Bool.and_eq_true, decide_eq_true_eq]; tauto)]
    exact iff_of_true rfl h1
  · rw [if_neg (by simp only [Bool.and_eq_true, decide_eq_true_eq]; tauto)]
    exact iff_of_false Bool.false_ne_true h1

/-- C3 (code bug): the repaired constructor succeeds exactly on the strings
whose split path starts with a slash and whose extension is allowed, and it
accepts /images/a.jpg while rejecting images/a.jpg and /images/a.bmp; but
actual construction (`ImageURL.init`) raises a TypeError on every input
because `is_valid_url` lacks its self parameter. -/
theorem imageurl_construction_codebug :
    (∀ url : String,
      (ImageURL.init_fixed url).isOk = true ↔
        ((splitext url.data).1.head? = some '/' ∧
         valid_extensions.contains (String.mk (splitext url.data).2) = true)) ∧
    ImageURL.init_fixed "/images/a.jpg" = Except.ok ⟨"/images/a.jpg"⟩ ∧
    (ImageURL.init_fixed "images/a.jpg").isOk = false ∧
    (ImageURL.init_fixed "/images/a.bmp").isOk = false ∧
    ImageURL.init "/images/a.jpg" = Except.error
      (PyError.typeError "is_valid_url() takes 1 positional argument but 2 were given") := by
  refine ⟨?_, rfl, rfl, rfl, rfl⟩
  intro url
  have hstep : (ImageURL.init_fixed url).isOk = true ↔
      ImageURL.is_valid_url url = Except.ok true := by
    unfold ImageURL.init_fixed
    cases hv : ImageURL.is_valid_url url with
    | error e => simp [hv, Except.isOk, Except.toBool]
    | ok b => cases b <;> simp [hv, Except.isOk, Except.toBool]
  rw [hstep]
  cases hp : (splitext url.data).1 with
  | nil =>
    rw [is_valid_url_nil url hp]
    simp
  | cons c cs =>
    rw [is_valid_url_cons url c cs hp]
    cases hb : (c != '/' || !(valid_extensions.contains (String.mk (splitext url.data).2))) with
    | false =>
      rw [if_neg (by simp [hb])]
      simp at hb
      exact iff_of_true rfl ⟨by rw [List.head?_cons, hb.1], by simpa using hb.2⟩
    | true =>
      rw [if_pos rfl]
      constructor
      · intro hcontra
        exact absurd hcontra (by simp)
      · rintro ⟨hh1, hh2⟩
        simp only [List.head?_cons, Option.some.injEq] at hh1
        simp only [Bool.or_eq_true, bne_iff_ne, Bool.not_eq_true] at hb
        rcases hb with hx | hx
        · exact absurd hh1 hx
        · rw [hh2] at hx
          exact absurd hx (by simp)

/-- C8 counterexample: at north latitude 90, a failing bound, the actual
constructor raises a TypeError about float(); with the validators repaired
it raises the bare argument-free Exception() of line 141, whose payload is
empty — neither error identifies the offending field or its value. -/
theorem location_error_counterexample :
    Location.init ⟨0,0⟩ ⟨90,0⟩ ⟨-45,0⟩ ⟨90,0⟩ ⟨-90,0⟩ =
      Except.error (PyError.typeError
        "float() argument must be a string or a number, not LatLong") ∧
    Location.init_fixed ⟨0,0⟩ ⟨90,0⟩ ⟨-45,0⟩ ⟨90,0⟩ ⟨-90,0⟩ = Except.error PyError.exception ∧
    PyError.payload PyError.exception = none := by
  exact ⟨rfl, rfl, rfl⟩

/-- C8 amended: whenever a repaired bound check fails, Location
construction raises the bare generic Exception carrying no field or value;
the unrepaired constructor raises a TypeError on every input, so no
error identifying the offending field is ever produced. -/
theorem location_generic_error_amended (center north south east west : LatLong)
    (h : (Location.validate_latitudes_fixed north south &&
          Location.validate_longitudes_fixed east west) = false) :
    Location.init_fixed center north south east west = Except.error PyError.exception ∧
    Location.init center north south east west = Except.error
      (PyError.typeError "float() argument must be a string or a number, not LatLong") := by
  refine ⟨?_, rfl⟩
  simp [Location.init_fixed, h]

/-- C8 amended witness at north latitude 90. -/
theorem location_generic_error_amended_witness :
    Location.init_fixed ⟨0,0⟩ ⟨90,0⟩ ⟨-45,0⟩ ⟨90,0⟩ ⟨-90,0⟩ = Except.error PyError.exception ∧
    Location.init ⟨0,0⟩ ⟨90,0⟩ ⟨-45,0⟩ ⟨90,0⟩ ⟨-90,0⟩ = Except.error
      (PyError.typeError "float() argument must be a string or a number, not LatLong") :=
  location_generic_error_amended ⟨0,0⟩ ⟨90,0⟩ ⟨-45,0⟩ ⟨90,0⟩ ⟨-90,0⟩ (by decide)

/-- C9: Hazard and HazardInfo are structurally identical: the two
field-preserving maps between them are mutually inverse, and each of the
five fields is preserved, so a field-preserving bijection exists. -/
theorem hazard_hazardinfo_bijection :
    (∀ h : HazardInfo, (HazardInfo.toHazard h).toHazardInfo = h) ∧
    (∀ h : Hazard, (Hazard.toHazardInfo h).toHazard = h) ∧
    (∀ h : HazardInfo,
      (HazardInfo.toHazard h).hazard_id = h.hazard_id ∧
      (HazardInfo.toHazard h).name = h.name ∧
      (HazardInfo.toHazard h).hazard_type = h.hazard_type ∧
      (HazardInfo.toHazard h).location = h.location ∧
      (HazardInfo.toHazard h).last_updated = h.last_updated) :=
  ⟨fun _ => rfl, fun _ => rfl, fun _ => ⟨rfl, rfl, rfl, rfl, rfl⟩⟩

/-- C10: on the empty string the split yields an empty path, and
`is_valid_url` reaches filename[0] unguarded: it raises IndexError instead
of returning a boolean, and the constructor body would propagate that
IndexError rather than the documented ValueError. -/
theorem imageurl_empty_path_index_crash :
    (splitext "".data).1 = [] ∧
    ImageURL.is_valid_url "" = Except.error PyError.indexError ∧
    ImageURL.init_fixed "" = Except.error PyError.indexError :=
  ⟨rfl, rfl, rfl⟩
